import Mathlib

/-!
Verification development for the earthquake dashboard repository
(`streamlit_app/eq_dashboard.py`).  The Python source is shallowly embedded:
Python values that can reach the parameters of `retrieve_data_from_usgs_api`
are modelled by `PyVal`, the single outbound HTTP request is modelled by a
function argument `net : String → HttpResponse`, the Streamlit render calls
are modelled as an effect trace, and Python exceptions are modelled by
`PyError`.  Floating point numbers are modelled by exact rationals and the
`pandas` dataframe by a header row plus string cell rows.
-/

/-- Model of the Python values relevant to the dashboard entry points:
`None`, ints, floats (as exact rationals), strings, and `datetime.date`. -/
inductive PyVal where
  | none
  | int (n : Int)
  | float (q : ℚ)
  | str (s : String)
  | date (y m d : Nat)
deriving DecidableEq

/-- Python truthiness (`if x:`) for the modelled values. -/
def pyTruthy : PyVal → Bool
  | PyVal.none => false
  | PyVal.int n => decide (n ≠ 0)
  | PyVal.float q => decide (q ≠ 0)
  | PyVal.str s => decide (s ≠ "")
  | PyVal.date _ _ _ => true

/-- `isinstance(x, float) or isinstance(x, int)`. -/
def isNumberVal : PyVal → Bool
  | PyVal.int _ => true
  | PyVal.float _ => true
  | _ => false

/-- `isinstance(x, datetime.date)`. -/
def isDateVal : PyVal → Bool
  | PyVal.date _ _ _ => true
  | _ => false

def pad2 (n : Nat) : String :=
  if n < 10 then "0" ++ toString n else toString n

def pad4 (n : Nat) : String :=
  if n < 10 then "000" ++ toString n
  else if n < 100 then "00" ++ toString n
  else if n < 1000 then "0" ++ toString n
  else toString n

/-- Decimal digits of the fractional part of `r / d`, with explicit fuel. -/
def fracDigitsAux (d : Nat) : Nat → Nat → String
  | 0, _ => ""
  | _ + 1, 0 => ""
  | fuel + 1, r =>
      let r10 := r * 10
      String.singleton (Char.ofNat (48 + r10 / d)) ++ fracDigitsAux d fuel (r10 % d)

/-- Decimal rendering of the nonnegative rational `n / d`, Python style
(`str(5.0) = "5.0"`). -/
def floatStrNN (n d : Nat) : String :=
  let fr := fracDigitsAux d 30 (n % d)
  toString (n / d) ++ "." ++ (if fr = "" then "0" else fr)

/-- Decimal rendering of a rational, modelling Python `str` on floats whose
value is an exact decimal. -/
def floatStr (q : ℚ) : String :=
  if q < 0 then "-" ++ floatStrNN (-q).num.toNat (-q).den
  else floatStrNN q.num.toNat q.den

/-- Python `str()` of a modelled value, as used by f-string interpolation. -/
def pyStrOf : PyVal → String
  | PyVal.none => "None"
  | PyVal.int n => toString n
  | PyVal.float q => floatStr q
  | PyVal.str s => s
  | PyVal.date y m d => pad4 y ++ "-" ++ pad2 m ++ "-" ++ pad2 d

/-- Split a character list at every occurrence of `sep` (kept executable by
structural recursion; mirrors the line and field splitting done by the csv
reader). -/
def splitOnChar (sep : Char) : List Char → List (List Char)
  | [] => [[]]
  | c :: rest =>
      let r := splitOnChar sep rest
      if c = sep then [] :: r
      else
        match r with
        | [] => [[c]]
        | h :: t => (c :: h) :: t

/-- Does `l` start with `pat`? -/
def listStarts : List Char → List Char → Bool
  | [], _ => true
  | _ :: _, [] => false
  | p :: ps, c :: cs => p == c && listStarts ps cs

/-- Does `l` contain `pat` as a contiguous run? -/
def listHasSub (pat : List Char) : List Char → Bool
  | [] => pat.isEmpty
  | c :: cs => listStarts pat (c :: cs) || listHasSub pat cs

/-- Substring test on strings (used to state facts about the request URL). -/
def containsSub (s pat : String) : Bool :=
  listHasSub pat.toList s.toList

def digitsValAux : List Char → Nat → Option Nat
  | [], acc => some acc
  | c :: cs, acc =>
      if c.isDigit then digitsValAux cs (acc * 10 + (c.toNat - 48))
      else Option.none

/-- Value of a nonempty digit string. -/
def digitsVal? (l : List Char) : Option Nat :=
  if l = [] then Option.none else digitsValAux l 0

/-- Parse a nonnegative decimal literal (`"5"`, `"5.1"`) into a rational. -/
def parseRatPos (l : List Char) : Option ℚ :=
  match splitOnChar '.' l with
  | [a] => (digitsVal? a).map (fun n => (n : ℚ))
  | [a, b] =>
      match digitsVal? a with
      | some ip =>
          if b = [] then some ((ip : Nat) : ℚ)
          else
            match digitsVal? b with
            | some fp => some ((ip : ℚ) + (fp : ℚ) / ((10 : ℚ) ^ b.length))
            | Option.none => Option.none
      | Option.none => Option.none
  | _ => Option.none

/-- Parse a (possibly negative) decimal literal into a rational, modelling the
float parsing pandas applies to the numeric csv columns. -/
def parseRat? (s : String) : Option ℚ :=
  match s.toList with
  | '-' :: rest => (parseRatPos rest).map (fun q => -q)
  | l => parseRatPos l

/-- Model of the parsed `pandas` dataframe: a header of column names and rows
of textual cells (numeric cells are parsed on demand with `parseRat?`). -/
structure DataFrame where
  columns : List String
  rows : List (List String)
deriving DecidableEq

/-- Model of the Python exceptions that the script can raise. -/
inductive PyError where
  | assertionError (msg : String)
  | emptyDataError
  | attributeError (name : String)
  | typeError (name : String)
  | valueError (name : String)
  | keyError (name : String)
deriving DecidableEq

/-- Model of `pd.read_csv` on the response text: split into nonblank lines,
first line is the header, remaining lines are rows; a body with no lines
raises `EmptyDataError`. -/
def read_csv (body : String) : Except PyError DataFrame :=
  let lines := (splitOnChar '\n' body.toList).filter (fun l => l ≠ [])
  match lines with
  | [] => Except.error PyError.emptyDataError
  | header :: rest =>
      Except.ok
        { columns := (splitOnChar ',' header).map String.mk
          rows := rest.map (fun r => (splitOnChar ',' r).map String.mk) }

/-- Cells of a named column (defaulting to the empty cell), as a total
function; only meaningful when the column exists. -/
def DataFrame.colD (df : DataFrame) (name : String) : List String :=
  match df.columns.findIdx? (fun c => c == name) with
  | some i => df.rows.map (fun r => r.getD i "")
  | Option.none => []

/-- The five columns the dashboard displays in its table. -/
def requiredCols : List String := ["place", "latitude", "longitude", "mag", "depth"]

/-- Rows restricted to `requiredCols`, modelling the dataframe column
selection `eq_df[["place", "latitude", "longitude", "mag", "depth"]]`. -/
def selRows (df : DataFrame) : List (List String) :=
  df.rows.map (fun r =>
    requiredCols.map (fun n => r.getD ((df.columns.findIdx? (fun c => c == n)).getD 0) ""))

/-- Model of `pandas` `Series.mean`: `NaN` (here `Option.none`) on an empty
series, otherwise the arithmetic mean. -/
def seriesMean (l : List ℚ) : Option ℚ :=
  if l.length = 0 then Option.none else some (l.sum / (l.length : ℚ))

/-- Floor of a rational as an integer (`Int.fdiv` is floor division). -/
def ratFloor (q : ℚ) : Int := q.num.fdiv q.den

/-- Round half to even, as `np.round` does. -/
def roundHalfEven (q : ℚ) : Int :=
  let f := ratFloor q
  if q - (f : ℚ) < 1 / 2 then f
  else if (1 : ℚ) / 2 < q - (f : ℚ) then f + 1
  else if f % 2 = 0 then f else f + 1

/-- Model of `np.round(x, 2)`. -/
def np_round2 (q : ℚ) : ℚ := ((roundHalfEven (q * 100) : ℚ)) / 100

/-- Text shown by the mean-magnitude metric: `nan` for an empty series,
otherwise the mean rounded to two decimals. -/
def displayRound2 : Option ℚ → String
  | Option.none => "nan"
  | some q => floatStr (np_round2 q)

/-- Csv quoting of a single field (minimal quoting, doubled inner quotes), as
`DataFrame.to_csv` does. -/
def csvField (s : String) : String :=
  if s.toList.any (fun c => c == ',' || c == '"' || c == '\n') then
    String.mk ('"' :: s.toList.foldr (fun c acc => if c == '"' then '"' :: '"' :: acc else c :: acc) ['"'])
  else s

def joinComma : List String → String
  | [] => ""
  | [x] => x
  | x :: y :: rest => x ++ "," ++ joinComma (y :: rest)

def csvLines : List (List String) → String
  | [] => ""
  | r :: rest => joinComma (r.map csvField) ++ "\n" ++ csvLines rest

/-- Model of `df.to_csv(index=False)`: the header line built from every
column of the dataframe (no index column), followed by one line per row. -/
def to_csv (df : DataFrame) : String :=
  joinComma (df.columns.map csvField) ++ "\n" ++ csvLines df.rows

/-- UTF-8 bytes of one character, modelling Python `str.encode()`. -/
def utf8Bytes (c : Char) : List Nat :=
  if c.toNat < 128 then [c.toNat]
  else if c.toNat < 2048 then [192 + c.toNat / 64, 128 + c.toNat % 64]
  else if c.toNat < 65536 then
    [224 + c.toNat / 4096, 128 + c.toNat / 64 % 64, 128 + c.toNat % 64]
  else
    [240 + c.toNat / 262144, 128 + c.toNat / 4096 % 64, 128 + c.toNat / 64 % 64,
      128 + c.toNat % 64]

/-- UTF-8 bytes of a string (Python `s.encode()`). -/
def strBytes (s : String) : List Nat :=
  s.toList.flatMap utf8Bytes

/-- The base64 alphabet. -/
def b64chars : List Char :=
  "ABCDEFGHIJKLMNOPQRSTUVWXYZabcdefghijklmnopqrstuvwxyz0123456789+/".toList

def encSextet (n : Nat) : Char := b64chars.getD n '?'

def decSextet (c : Char) : Option Nat := b64chars.findIdx? (fun x => x == c)

/-- Standard base64 encoding of a byte list (`base64.b64encode`). -/
def b64encBytes : List Nat → List Char
  | [] => []
  | [a] => [encSextet (a / 4), encSextet (a % 4 * 16), '=', '=']
  | [a, b] => [encSextet (a / 4), encSextet (a % 4 * 16 + b / 16), encSextet (b % 16 * 4), '=']
  | a :: b :: c :: rest =>
      encSextet (a / 4) :: encSextet (a % 4 * 16 + b / 16) ::
        encSextet (b % 16 * 4 + c / 64) :: encSextet (c % 64) :: b64encBytes rest

/-- Standard base64 decoding of a character list (`base64.b64decode`). -/
def b64decBytes : List Char → Option (List Nat)
  | [] => some []
  | c1 :: c2 :: c3 :: c4 :: rest =>
      match decSextet c1, decSextet c2 with
      | some s1, some s2 =>
          if c3 = '=' then
            if c4 = '=' ∧ rest = [] then some [s1 * 4 + s2 / 16] else Option.none
          else
            match decSextet c3 with
            | some s3 =>
                if c4 = '=' then
                  if rest = [] then some [s1 * 4 + s2 / 16, s2 % 16 * 16 + s3 / 4]
                  else Option.none
                else
                  match decSextet c4 with
                  | some s4 =>
                      match b64decBytes rest with
                      | some t =>
                          some ((s1 * 4 + s2 / 16) :: (s2 % 16 * 16 + s3 / 4) :: (s3 % 4 * 64 + s4) :: t)
                      | Option.none => Option.none
                  | Option.none => Option.none
            | Option.none => Option.none
      | _, _ => Option.none
  | _ => Option.none

/-- Model of `get_table_download_link`: serialize with `to_csv(index=False)`,
utf-8 encode, base64 encode, and wrap in an inline `href` payload. -/
def get_table_download_link (df : DataFrame) : String :=
  let csv := to_csv df
  let b64 := String.mk (b64encBytes (strBytes csv))
  "<a href=\"data:file/csv;base64," ++ b64 ++ "\">Download CSV file</a>"

/-- Model of the `requests` response: status code and body text. -/
structure HttpResponse where
  status_code : Nat
  text : String
deriving DecidableEq

/-- Observable effects of one invocation of the dashboard function: the
single outbound HTTP GET plus each Streamlit render call, in program order. -/
inductive Effect where
  | httpGet (url : String)
  | metric (label value : String)
  | write (s : String)
  | plotlyChart (lat lon : List String) (sizes : List ℚ) (place mag : List String)
  | dataframe (cols : List String) (rows : List (List String))
  | markdown (s : String)
deriving DecidableEq

def statusMsg : String :=
  "There was a problem with the request. Try again or check the status of the USGS API."

def minMagMsg : String := "min_mag parameter should be a float or int number."

/-- The spec's error taxonomy. -/
inductive SpecErrorKind where
  | invalidParameterError
  | remoteRequestError
  | parseError
deriving DecidableEq

/-- Modelled from the spec: section 7 names the error kinds
`InvalidParameterError` (bad input shape or type, raised before any network
call), `RemoteRequestError` (non-success transport response) and `ParseError`
(response body unparseable as tabular data or lacking required columns).
This classifies each implementation exception site into that taxonomy: the
status-check assertion is the transport failure, the other assertions are the
parameter checks, and every failure coming out of the response body (missing
or non-numeric columns, unparseable body) is a parse failure. -/
def specKind : PyError → SpecErrorKind
  | PyError.assertionError msg =>
      if msg = statusMsg then SpecErrorKind.remoteRequestError
      else SpecErrorKind.invalidParameterError
  | _ => SpecErrorKind.parseError

def usgsQueryBase : String := "https://earthquake.usgs.gov/fdsnws/event/1/query?"

/-- Request URL construction from `retrieve_data_from_usgs_api`: the
`minmagnitude` parameter is appended only when `min_mag` is truthy. -/
def buildUrl (start_date end_date min_mag : PyVal) : String :=
  if pyTruthy min_mag then
    usgsQueryBase ++ "format=csv&starttime=" ++ pyStrOf start_date ++ "&endtime=" ++
      pyStrOf end_date ++ "&minmagnitude=" ++ pyStrOf min_mag
  else
    usgsQueryBase ++ "format=csv&starttime=" ++ pyStrOf start_date ++ "&endtime=" ++
      pyStrOf end_date

/-- Numeric parse of a whole column, as `pandas` type inference does for the
`mag` column (`Option.none` models the `TypeError` raised by `.mean()` on a
column that did not parse as numbers). -/
def parseColumn (l : List String) : Option (List ℚ) :=
  l.mapM parseRat?

/-- The post-parse part of `retrieve_data_from_usgs_api`, in program order:
count metric; mean metric (`eq_df.mag` raises `AttributeError` when the `mag`
column is absent, and `.mean()` raises `TypeError` on non-numeric cells); two
blank writes; the scatter-geo chart (raises `ValueError` when `latitude`,
`longitude` or `place` is absent); the five-column table (raises `KeyError`
when `depth` is absent); the download link built from the full dataframe.
Returns the effect trace together with the outcome (`None` on success). -/
def renderBody (eq_df : DataFrame) : List Effect × Except PyError PyVal :=
  let countE := Effect.metric "Number of Earthquakes" (toString eq_df.rows.length)
  if "mag" ∈ eq_df.columns then
    match parseColumn (eq_df.colD "mag") with
    | some mags =>
        let meanE := Effect.metric "Average Mag of Earthquakes" (displayRound2 (seriesMean mags))
        if "latitude" ∈ eq_df.columns ∧ "longitude" ∈ eq_df.columns ∧
            "place" ∈ eq_df.columns then
          let plotE := Effect.plotlyChart (eq_df.colD "latitude") (eq_df.colD "longitude")
            (mags.map (fun q => q * q)) (eq_df.colD "place") (eq_df.colD "mag")
          if "depth" ∈ eq_df.columns then
            ([countE, meanE, Effect.write "", Effect.write "", plotE,
              Effect.dataframe requiredCols (selRows eq_df),
              Effect.markdown (get_table_download_link eq_df)],
             Except.ok PyVal.none)
          else
            ([countE, meanE, Effect.write "", Effect.write "", plotE],
             Except.error (PyError.keyError "depth"))
        else
          ([countE, meanE, Effect.write "", Effect.write ""],
           Except.error (PyError.valueError "scatter_geo"))
    | Option.none => ([countE], Except.error (PyError.typeError "mag"))
  else ([countE], Except.error (PyError.attributeError "mag"))

/-- Shallow embedding of `retrieve_data_from_usgs_api(start_date, end_date,
min_mag)`.  The two date asserts run first, then (only when `min_mag` is
truthy) the numeric type assert, then the URL is built, the single GET is
issued (recorded as an `Effect.httpGet`), the 200 status assert runs, the
body is parsed with `read_csv`, and the result is rendered by `renderBody`.
The Python function returns `None`. -/
def retrieve_data_from_usgs_api (start_date end_date min_mag : PyVal)
    (net : String → HttpResponse) : List Effect × Except PyError PyVal :=
  if isDateVal start_date then
    if isDateVal end_date then
      if pyTruthy min_mag && !(isNumberVal min_mag) then
        ([], Except.error (PyError.assertionError minMagMsg))
      else
        let req_txt := buildUrl start_date end_date min_mag
        let response := net req_txt
        if response.status_code = 200 then
          match read_csv response.text with
          | Except.ok eq_df =>
              let r := renderBody eq_df
              (Effect.httpGet req_txt :: r.1, r.2)
          | Except.error pe => ([Effect.httpGet req_txt], Except.error pe)
        else ([Effect.httpGet req_txt], Except.error (PyError.assertionError statusMsg))
    else ([], Except.error (PyError.assertionError ""))
  else ([], Except.error (PyError.assertionError ""))

theorem decSextet_encSextet : ∀ n : Nat, n < 64 → decSextet (encSextet n) = some n := by decide

theorem encSextet_ne_pad : ∀ n : Nat, n < 64 → ¬(encSextet n = '=') := by decide

theorem b64_roundtrip : ∀ l : List Nat, (∀ b ∈ l, b < 256) → b64decBytes (b64encBytes l) = some l
  | [], _ => rfl
  | [a], h => by
      have ha : a < 256 := h a (by simp)
      have e1 := decSextet_encSextet (a / 4) (by omega)
      have e2 := decSextet_encSextet (a % 4 * 16) (by omega)
      simp only [b64encBytes, b64decBytes, e1, e2]
      simp only [Option.some.injEq, List.cons.injEq, and_true, if_pos, reduceIte]
      omega
  | [a, b], h => by
      have ha : a < 256 := h a (by simp)
      have hb : b < 256 := h b (by simp)
      have e1 := decSextet_encSextet (a / 4) (by omega)
      have e2 := decSextet_encSextet (a % 4 * 16 + b / 16) (by omega)
      have e3 := decSextet_encSextet (b % 16 * 4) (by omega)
      have n3 := encSextet_ne_pad (b % 16 * 4) (by omega)
      simp only [b64encBytes, b64decBytes, e1, e2, e3]
      simp only [n3, if_false, reduceIte, Option.some.injEq, List.cons.injEq, and_true]
      omega
  | a :: b :: c :: rest, h => by
      have ha : a < 256 := h a (by simp)
      have hb : b < 256 := h b (by simp)
      have hc : c < 256 := h c (by simp)
      have ih := b64_roundtrip rest (fun x hx => h x (by simp [hx]))
      have e1 := decSextet_encSextet (a / 4) (by omega)
      have e2 := decSextet_encSextet (a % 4 * 16 + b / 16) (by omega)
      have e3 := decSextet_encSextet (b % 16 * 4 + c / 64) (by omega)
      have e4 := decSextet_encSextet (c % 64) (by omega)
      have n3 := encSextet_ne_pad (b % 16 * 4 + c / 64) (by omega)
      have n4 := encSextet_ne_pad (c % 64) (by omega)
      simp only [b64encBytes, b64decBytes, e1, e2, e3, e4, ih]
      simp only [n3, n4, if_false, reduceIte, Option.some.injEq, List.cons.injEq, and_true]
      omega

theorem utf8Bytes_lt (ch : Char) : ∀ b ∈ utf8Bytes ch, b < 256 := by
  have hval : ch.val.toNat < 0xd800 ∨ (0xdfff < ch.val.toNat ∧ ch.val.toNat < 0x110000) :=
    ch.valid
  have htn : ch.toNat = ch.val.toNat := rfl
  have hv : ch.toNat < 1114112 := by omega
  intro b hb
  unfold utf8Bytes at hb
  split at hb
  · simp at hb; omega
  · split at hb
    · simp at hb; omega
    · split at hb
      · simp at hb; omega
      · simp at hb; omega

theorem strBytes_lt (s : String) : ∀ b ∈ strBytes s, b < 256 := by
  intro b hb
  simp only [strBytes, List.mem_flatMap] at hb
  obtain ⟨c, _, hc⟩ := hb
  exact utf8Bytes_lt c b hc

/-- C4: for every dataset, the base64 payload embedded in the link returned by
`get_table_download_link` decodes back to exactly the utf-8 bytes of the
dataset's comma-separated serialization `to_csv` (byte-for-byte round-trip). -/
theorem download_link_base64_roundtrip (df : DataFrame) :
    ∃ payload : List Char,
      get_table_download_link df =
        "<a href=\"data:file/csv;base64," ++ String.mk payload ++ "\">Download CSV file</a>" ∧
      b64decBytes payload = some (strBytes (to_csv df)) := by
  refine ⟨b64encBytes (strBytes (to_csv df)), rfl, ?_⟩
  exact b64_roundtrip (strBytes (to_csv df)) (strBytes_lt (to_csv df))

theorem min_mag_check_false {mm : PyVal} (h : pyTruthy mm = true → isNumberVal mm = true) :
    (pyTruthy mm && !(isNumberVal mm)) = false := by
  cases ht : pyTruthy mm
  · simp
  · simp [h ht]

theorem retrieve_unfold (s e mm : PyVal) (net : String → HttpResponse) {df : DataFrame}
    (hs : isDateVal s = true) (he : isDateVal e = true)
    (hq : pyTruthy mm = true → isNumberVal mm = true)
    (hst : (net (buildUrl s e mm)).status_code = 200)
    (hp : read_csv (net (buildUrl s e mm)).text = Except.ok df) :
    retrieve_data_from_usgs_api s e mm net =
      (Effect.httpGet (buildUrl s e mm) :: (renderBody df).1, (renderBody df).2) := by
  unfold retrieve_data_from_usgs_api
  simp only [hs, he, min_mag_check_false hq, hst, hp, if_true, Bool.false_eq_true, if_false]

theorem retrieve_head (s e mm : PyVal) (net : String → HttpResponse)
    (hs : isDateVal s = true) (he : isDateVal e = true)
    (hq : pyTruthy mm = true → isNumberVal mm = true) :
    (retrieve_data_from_usgs_api s e mm net).1.head? =
      some (Effect.httpGet (buildUrl s e mm)) := by
  unfold retrieve_data_from_usgs_api
  simp only [hs, he, min_mag_check_false hq, if_true, Bool.false_eq_true, if_false]
  by_cases h200 : (net (buildUrl s e mm)).status_code = 200
  · cases hr : read_csv (net (buildUrl s e mm)).text <;> simp [h200, hr]
  · simp [h200]

theorem renderBody_ok (df : DataFrame) (mags : List ℚ)
    (hmag : "mag" ∈ df.columns)
    (hmags : parseColumn (df.colD "mag") = some mags)
    (hlat : "latitude" ∈ df.columns)
    (hlon : "longitude" ∈ df.columns)
    (hplace : "place" ∈ df.columns)
    (hdep : "depth" ∈ df.columns) :
    renderBody df =
      ([Effect.metric "Number of Earthquakes" (toString df.rows.length),
        Effect.metric "Average Mag of Earthquakes" (displayRound2 (seriesMean mags)),
        Effect.write "", Effect.write "",
        Effect.plotlyChart (df.colD "latitude") (df.colD "longitude")
          (mags.map (fun q => q * q)) (df.colD "place") (df.colD "mag"),
        Effect.dataframe requiredCols (selRows df),
        Effect.markdown (get_table_download_link df)],
       Except.ok PyVal.none) := by
  unfold renderBody
  simp only [hmag, hmags, hlat, hlon, hplace, hdep, if_true, and_self, true_and, and_true,
    if_pos]

theorem renderBody_missing (df : DataFrame) (h : ¬ (requiredCols ⊆ df.columns)) :
    ∃ pe, (renderBody df).2 = Except.error pe ∧ specKind pe = SpecErrorKind.parseError ∧
      (∀ cs rs, Effect.dataframe cs rs ∉ (renderBody df).1) ∧
      (∀ msg, Effect.markdown msg ∉ (renderBody df).1) := by
  by_cases hmag : "mag" ∈ df.columns
  · cases hmp : parseColumn (df.colD "mag") with
    | none =>
        exact ⟨PyError.typeError "mag", by simp [renderBody, hmag, hmp],
          by simp [specKind], by simp [renderBody, hmag, hmp], by simp [renderBody, hmag, hmp]⟩
    | some mags =>
        by_cases hgeo : "latitude" ∈ df.columns ∧ "longitude" ∈ df.columns ∧
            "place" ∈ df.columns
        · by_cases hdep : "depth" ∈ df.columns
          · exfalso
            apply h
            intro x hx
            simp only [requiredCols, List.mem_cons, List.not_mem_nil, or_false] at hx
            rcases hx with rfl | rfl | rfl | rfl | rfl
            · exact hgeo.2.2
            · exact hgeo.1
            · exact hgeo.2.1
            · exact hmag
            · exact hdep
          · exact ⟨PyError.keyError "depth", by simp [renderBody, hmag, hmp, hgeo, hdep],
              by simp [specKind], by simp [renderBody, hmag, hmp, hgeo, hdep],
              by simp [renderBody, hmag, hmp, hgeo, hdep]⟩
        · exact ⟨PyError.valueError "scatter_geo", by simp [renderBody, hmag, hmp, hgeo],
            by simp [specKind], by simp [renderBody, hmag, hmp, hgeo],
            by simp [renderBody, hmag, hmp, hgeo]⟩
  · exact ⟨PyError.attributeError "mag", by simp [renderBody, hmag],
      by simp [specKind], by simp [renderBody, hmag], by simp [renderBody, hmag]⟩

def dA : PyVal := PyVal.date 2024 1 1

def dB : PyVal := PyVal.date 2024 1 2

def bodyFull : String := "time,place,latitude,longitude,mag,depth"

def netFull : String → HttpResponse := fun _ => { status_code := 200, text := bodyFull }

def dfFull : DataFrame :=
  { columns := ["time", "place", "latitude", "longitude", "mag", "depth"], rows := [] }

def bodyNoMag : String := "place,latitude,longitude,depth\nAlaska,61.0,-150.0,10.0"

def netNoMag : String → HttpResponse := fun _ => { status_code := 200, text := bodyNoMag }

def dfNoMag : DataFrame :=
  { columns := ["place", "latitude", "longitude", "depth"],
    rows := [["Alaska", "61.0", "-150.0", "10.0"]] }

def net404 : String → HttpResponse := fun _ => { status_code := 404, text := "" }

/-- C5: for every non-empty magnitude column, the reported mean magnitude is
the arithmetic mean of the `mag` column rounded to two decimal places
(`np.round`, half to even), and it is invariant under permuting the records:
any permutation of the column gives the same mean. -/
theorem mean_magnitude_rounded_perm (l : List ℚ) (h : l ≠ []) :
    seriesMean l = some (l.sum / (l.length : ℚ)) ∧
    displayRound2 (seriesMean l) = floatStr (np_round2 (l.sum / (l.length : ℚ))) ∧
    ∀ l2 : List ℚ, l.Perm l2 → seriesMean l = seriesMean l2 := by
  have hlen : l.length ≠ 0 := fun hh => h (List.length_eq_zero.mp hh)
  refine ⟨by simp [seriesMean, hlen], by simp [seriesMean, hlen, displayRound2], ?_⟩
  intro l2 hperm
  simp [seriesMean, hperm.length_eq, hperm.sum_eq]

/-- C5 witness, at the spec's example magnitudes 5.1, 6.2, 5.5. -/
theorem mean_magnitude_rounded_perm_witness :
    ([51/10, 31/5, 11/2] : List ℚ) ≠ [] ∧
      (seriesMean [51/10, 31/5, 11/2] =
          some (([51/10, 31/5, 11/2] : List ℚ).sum / (([51/10, 31/5, 11/2] : List ℚ).length : ℚ)) ∧
        displayRound2 (seriesMean [51/10, 31/5, 11/2]) =
          floatStr (np_round2 (([51/10, 31/5, 11/2] : List ℚ).sum /
            (([51/10, 31/5, 11/2] : List ℚ).length : ℚ))) ∧
        ∀ l2 : List ℚ, ([51/10, 31/5, 11/2] : List ℚ).Perm l2 →
          seriesMean [51/10, 31/5, 11/2] = seriesMean l2) :=
  ⟨by simp, mean_magnitude_rounded_perm [51/10, 31/5, 11/2] (by simp)⟩

/-- C6: on a response whose tabular body has the five columns but no data
rows (an empty dataset), the pipeline renders the sentinel `nan` as the
mean-magnitude metric and completes normally (`seriesMean` of the empty
column is the `NaN` sentinel `Option.none`, not an arithmetic fault). -/
theorem empty_dataset_mean_nan (s e : PyVal) (hs : isDateVal s = true)
    (he : isDateVal e = true) :
    Effect.metric "Average Mag of Earthquakes" "nan" ∈
      (retrieve_data_from_usgs_api s e PyVal.none
        (fun _ => { status_code := 200, text := "place,latitude,longitude,mag,depth" })).1 ∧
    (retrieve_data_from_usgs_api s e PyVal.none
        (fun _ => { status_code := 200, text := "place,latitude,longitude,mag,depth" })).2 =
      Except.ok PyVal.none ∧
    seriesMean [] = Option.none := by
  have hq : pyTruthy PyVal.none = true → isNumberVal PyVal.none = true := by simp [pyTruthy]
  have hp : read_csv ((fun (_ : String) =>
        ({ status_code := 200, text := "place,latitude,longitude,mag,depth" } : HttpResponse))
          (buildUrl s e PyVal.none)).text =
      Except.ok { columns := ["place", "latitude", "longitude", "mag", "depth"], rows := [] } := rfl
  rw [retrieve_unfold s e PyVal.none _ hs he hq rfl hp,
      renderBody_ok { columns := ["place", "latitude", "longitude", "mag", "depth"], rows := [] }
        [] (by decide) rfl (by decide) (by decide) (by decide) (by decide)]
  refine ⟨?_, rfl, rfl⟩
  simp [displayRound2, seriesMean]

/-- C6 witness, at the concrete dates 2024-01-01 and 2024-01-02. -/
theorem empty_dataset_mean_nan_witness :
    isDateVal dA = true ∧ isDateVal dB = true ∧
      (Effect.metric "Average Mag of Earthquakes" "nan" ∈
          (retrieve_data_from_usgs_api dA dB PyVal.none
            (fun _ => { status_code := 200, text := "place,latitude,longitude,mag,depth" })).1 ∧
        (retrieve_data_from_usgs_api dA dB PyVal.none
            (fun _ => { status_code := 200, text := "place,latitude,longitude,mag,depth" })).2 =
          Except.ok PyVal.none ∧
        seriesMean [] = Option.none) :=
  ⟨rfl, rfl, empty_dataset_mean_nan dA dB rfl rfl⟩

/-- C7: whenever the transport response status is not 200, the invocation
fails with the status assertion (the spec's `RemoteRequestError`), no dataset
is returned, and the effect trace holds only the request itself: nothing of
the body is parsed or rendered. -/
theorem non_success_status_remote_error (s e mm : PyVal) (net : String → HttpResponse)
    (hs : isDateVal s = true) (he : isDateVal e = true)
    (hq : pyTruthy mm = true → isNumberVal mm = true)
    (hcode : (net (buildUrl s e mm)).status_code ≠ 200) :
    retrieve_data_from_usgs_api s e mm net =
      ([Effect.httpGet (buildUrl s e mm)], Except.error (PyError.assertionError statusMsg)) ∧
    specKind (PyError.assertionError statusMsg) = SpecErrorKind.remoteRequestError := by
  constructor
  · unfold retrieve_data_from_usgs_api
    simp [hs, he, min_mag_check_false hq, hcode]
  · simp [specKind]

/-- C7 witness: a 404 response. -/
theorem non_success_status_remote_error_witness :
    isDateVal dA = true ∧ isDateVal dB = true ∧
      (pyTruthy PyVal.none = true → isNumberVal PyVal.none = true) ∧
      (net404 (buildUrl dA dB PyVal.none)).status_code ≠ 200 ∧
      (retrieve_data_from_usgs_api dA dB PyVal.none net404 =
          ([Effect.httpGet (buildUrl dA dB PyVal.none)],
            Except.error (PyError.assertionError statusMsg)) ∧
        specKind (PyError.assertionError statusMsg) = SpecErrorKind.remoteRequestError) :=
  ⟨rfl, rfl, by simp [pyTruthy], by decide,
    non_success_status_remote_error dA dB PyVal.none net404 rfl rfl
      (by simp [pyTruthy]) (by decide)⟩

/-- C3 (amended): malformed dates, and any provided `min_magnitude` that is
truthy and not a number, are rejected by an assertion (the spec's
`InvalidParameterError`) before any network call: the effect trace is empty.
A falsy non-numeric `min_magnitude` (such as the empty string) instead
bypasses the type check entirely — see the counterexample. -/
theorem invalid_params_fail_before_network (s e mm : PyVal) (net : String → HttpResponse)
    (h : isDateVal s = false ∨ isDateVal e = false ∨
      (pyTruthy mm = true ∧ isNumberVal mm = false)) :
    ∃ msg, retrieve_data_from_usgs_api s e mm net =
        ([], Except.error (PyError.assertionError msg)) ∧
      specKind (PyError.assertionError msg) = SpecErrorKind.invalidParameterError := by
  cases hs : isDateVal s with
  | false => exact ⟨"", by simp [retrieve_data_from_usgs_api, hs], by decide⟩
  | true =>
      cases he : isDateVal e with
      | false => exact ⟨"", by simp [retrieve_data_from_usgs_api, hs, he], by decide⟩
      | true =>
          have h3 : pyTruthy mm = true ∧ isNumberVal mm = false := by
            rcases h with h | h | h
            · exact absurd hs (by simp [h])
            · exact absurd he (by simp [h])
            · exact h
          exact ⟨minMagMsg,
            by simp [retrieve_data_from_usgs_api, hs, he, h3.1, h3.2], by decide⟩

/-- C3 witness: a string passed as `start_date` is rejected with the
parameter assertion and the effect trace is empty (no network call). -/
theorem invalid_params_fail_before_network_witness :
    (isDateVal (PyVal.str "2024-01-01") = false ∨ isDateVal dB = false ∨
        (pyTruthy PyVal.none = true ∧ isNumberVal PyVal.none = false)) ∧
      ∃ msg, retrieve_data_from_usgs_api (PyVal.str "2024-01-01") dB PyVal.none netFull =
          ([], Except.error (PyError.assertionError msg)) ∧
        specKind (PyError.assertionError msg) = SpecErrorKind.invalidParameterError :=
  ⟨Or.inl rfl,
    invalid_params_fail_before_network (PyVal.str "2024-01-01") dB PyVal.none netFull
      (Or.inl rfl)⟩

/-- C3 counterexample: the provided non-numeric `min_magnitude` value `""`
(the empty string, which is falsy) is not rejected: no error is signalled,
the network request is issued (it is the first effect of the trace), and the
run completes normally — refuting the claim that every provided non-numeric
`min_magnitude` fails before the network call. -/
theorem falsy_min_mag_reaches_network_cex :
    (retrieve_data_from_usgs_api dA dB (PyVal.str "") netFull).1.head? =
      some (Effect.httpGet (buildUrl dA dB (PyVal.str ""))) ∧
    (retrieve_data_from_usgs_api dA dB (PyVal.str "") netFull).2 = Except.ok PyVal.none := by
  constructor
  · rfl
  · rfl

/-- C9 (implicit): a provided `min_magnitude` of zero (int or float) is
treated exactly as if it were absent, because presence is tested by numeric
truthiness rather than comparison with `None`: the whole run (type check
skipped, URL, effects, outcome) is identical to the run with `min_mag=None`,
and the URL built for zero carries no `minmagnitude` parameter. -/
theorem zero_min_mag_treated_as_absent (s e : PyVal) (net : String → HttpResponse) :
    retrieve_data_from_usgs_api s e (PyVal.float 0) net =
      retrieve_data_from_usgs_api s e PyVal.none net ∧
    retrieve_data_from_usgs_api s e (PyVal.int 0) net =
      retrieve_data_from_usgs_api s e PyVal.none net ∧
    containsSub (buildUrl dA dB (PyVal.float 0)) "minmagnitude" = false := by
  refine ⟨?_, ?_, by decide⟩
  · simp [retrieve_data_from_usgs_api, buildUrl, pyTruthy]
  · simp [retrieve_data_from_usgs_api, buildUrl, pyTruthy]

/-- C8 counterexample: with valid dates and the provided `min_magnitude`
value `0.0`, the constructed URL carries no `minmagnitude` parameter at all,
refuting the claim's universal statement about provided values. -/
theorem zero_min_mag_url_cex :
    (retrieve_data_from_usgs_api dA dB (PyVal.float 0) netFull).1.head? =
      some (Effect.httpGet (buildUrl dA dB (PyVal.float 0))) ∧
    containsSub (buildUrl dA dB (PyVal.float 0)) "minmagnitude" = false := by
  constructor
  · rfl
  · decide

/-- C8 (amended): with valid dates and a truthy numeric `min_magnitude`, the
request URL is the fixed catalog endpoint with `format=csv`,
`starttime=<start>`, `endtime=<end>` and `minmagnitude=<value>`; the spec's
example inputs produce a URL containing
`starttime=2024-01-01&endtime=2024-01-02&minmagnitude=5.0`; with
`min_magnitude` absent the URL carries no `minmagnitude` parameter.  (A
provided zero behaves as absent — see the counterexample.) -/
theorem request_url_construction (s e mm : PyVal) (net : String → HttpResponse)
    (hs : isDateVal s = true) (he : isDateVal e = true)
    (ht : pyTruthy mm = true) (hn : isNumberVal mm = true) :
    (retrieve_data_from_usgs_api s e mm net).1.head? =
      some (Effect.httpGet (usgsQueryBase ++ "format=csv&starttime=" ++ pyStrOf s ++
        "&endtime=" ++ pyStrOf e ++ "&minmagnitude=" ++ pyStrOf mm)) ∧
    (∀ net2 : String → HttpResponse,
      (retrieve_data_from_usgs_api s e PyVal.none net2).1.head? =
        some (Effect.httpGet (usgsQueryBase ++ "format=csv&starttime=" ++ pyStrOf s ++
          "&endtime=" ++ pyStrOf e))) ∧
    containsSub (buildUrl dA dB (PyVal.float 5))
      "starttime=2024-01-01&endtime=2024-01-02&minmagnitude=5.0" = true ∧
    containsSub (buildUrl dA dB PyVal.none) "minmagnitude" = false := by
  have hbu : buildUrl s e mm =
      usgsQueryBase ++ "format=csv&starttime=" ++ pyStrOf s ++ "&endtime=" ++ pyStrOf e ++
        "&minmagnitude=" ++ pyStrOf mm := by
    simp [buildUrl, ht]
  have hbn : buildUrl s e PyVal.none =
      usgsQueryBase ++ "format=csv&starttime=" ++ pyStrOf s ++ "&endtime=" ++ pyStrOf e := by
    simp [buildUrl, pyTruthy]
  refine ⟨?_, fun net2 => ?_, by decide, by decide⟩
  · rw [retrieve_head s e mm net hs he (fun _ => hn), hbu]
  · rw [retrieve_head s e PyVal.none net2 hs he (by simp [pyTruthy]), hbn]

/-- C8 witness, at the spec's example inputs. -/
theorem request_url_construction_witness :
    isDateVal dA = true ∧ isDateVal dB = true ∧ pyTruthy (PyVal.float 5) = true ∧
      isNumberVal (PyVal.float 5) = true ∧
      ((retrieve_data_from_usgs_api dA dB (PyVal.float 5) netFull).1.head? =
          some (Effect.httpGet (usgsQueryBase ++ "format=csv&starttime=" ++ pyStrOf dA ++
            "&endtime=" ++ pyStrOf dB ++ "&minmagnitude=" ++ pyStrOf (PyVal.float 5))) ∧
        (∀ net2 : String → HttpResponse,
          (retrieve_data_from_usgs_api dA dB PyVal.none net2).1.head? =
            some (Effect.httpGet (usgsQueryBase ++ "format=csv&starttime=" ++ pyStrOf dA ++
              "&endtime=" ++ pyStrOf dB))) ∧
        containsSub (buildUrl dA dB (PyVal.float 5))
          "starttime=2024-01-01&endtime=2024-01-02&minmagnitude=5.0" = true ∧
        containsSub (buildUrl dA dB PyVal.none) "minmagnitude" = false) :=
  ⟨rfl, rfl, by decide, rfl,
    request_url_construction dA dB (PyVal.float 5) netFull rfl rfl (by decide) rfl⟩

/-- C1 (amended): for every successful invocation (valid parameters, 200
response, parseable body with the required columns), the function parses an
`EarthquakeDataset` from the response body and renders it — the five-column
table and the download link appear in the effect trace — but it returns
`None` to its caller, not the dataset. -/
theorem success_renders_dataset_returns_none (s e mm : PyVal) (net : String → HttpResponse)
    (df : DataFrame) (mags : List ℚ)
    (hs : isDateVal s = true) (he : isDateVal e = true)
    (hq : pyTruthy mm = true → isNumberVal mm = true)
    (hst : (net (buildUrl s e mm)).status_code = 200)
    (hp : read_csv (net (buildUrl s e mm)).text = Except.ok df)
    (hmag : "mag" ∈ df.columns)
    (hmags : parseColumn (df.colD "mag") = some mags)
    (hlat : "latitude" ∈ df.columns) (hlon : "longitude" ∈ df.columns)
    (hplace : "place" ∈ df.columns) (hdep : "depth" ∈ df.columns) :
    (retrieve_data_from_usgs_api s e mm net).2 = Except.ok PyVal.none ∧
    Effect.dataframe requiredCols (selRows df) ∈
      (retrieve_data_from_usgs_api s e mm net).1 ∧
    Effect.markdown (get_table_download_link df) ∈
      (retrieve_data_from_usgs_api s e mm net).1 := by
  rw [retrieve_unfold s e mm net hs he hq hst hp,
      renderBody_ok df mags hmag hmags hlat hlon hplace hdep]
  refine ⟨rfl, by simp, by simp⟩

/-- C1 witness: instantiation of the amended claim at concrete inputs. -/
theorem success_renders_dataset_returns_none_witness :
    isDateVal dA = true ∧ isDateVal dB = true ∧
      (pyTruthy (PyVal.float 5) = true → isNumberVal (PyVal.float 5) = true) ∧
      (netFull (buildUrl dA dB (PyVal.float 5))).status_code = 200 ∧
      read_csv (netFull (buildUrl dA dB (PyVal.float 5))).text = Except.ok dfFull ∧
      "mag" ∈ dfFull.columns ∧ parseColumn (dfFull.colD "mag") = some [] ∧
      "latitude" ∈ dfFull.columns ∧ "longitude" ∈ dfFull.columns ∧
      "place" ∈ dfFull.columns ∧ "depth" ∈ dfFull.columns ∧
      ((retrieve_data_from_usgs_api dA dB (PyVal.float 5) netFull).2 = Except.ok PyVal.none ∧
        Effect.dataframe requiredCols (selRows dfFull) ∈
          (retrieve_data_from_usgs_api dA dB (PyVal.float 5) netFull).1 ∧
        Effect.markdown (get_table_download_link dfFull) ∈
          (retrieve_data_from_usgs_api dA dB (PyVal.float 5) netFull).1) :=
  ⟨rfl, rfl, fun _ => rfl, rfl, rfl, by decide, rfl, by decide, by decide, by decide,
    by decide,
    success_renders_dataset_returns_none dA dB (PyVal.float 5) netFull dfFull [] rfl rfl
      (fun _ => rfl) rfl rfl (by decide) rfl (by decide) (by decide) (by decide)
      (by decide)⟩

/-- C1 counterexample: one fully successful invocation at concrete inputs
whose outcome value is `None` (`Except.ok PyVal.none`): the parsed dataset is
rendered to the UI (its table appears in the effect trace) but is not
returned to the caller. -/
theorem returns_none_cex :
    (retrieve_data_from_usgs_api dA dB (PyVal.float 5) netFull).2 = Except.ok PyVal.none ∧
    Effect.dataframe requiredCols (selRows dfFull) ∈
      (retrieve_data_from_usgs_api dA dB (PyVal.float 5) netFull).1 := by
  constructor
  · rfl
  · decide

/-- C2: for every run whose response parses as tabular data but lacks one of
the required columns, the invocation fails with an error classified as the
spec's `ParseError` (for a missing `mag` the concrete exception is the
`AttributeError` raised by `eq_df.mag`), and no dataset is rendered or
returned: no table and no download link appear in the effect trace. -/
theorem missing_column_parse_error (s e mm : PyVal) (net : String → HttpResponse)
    (df : DataFrame)
    (hs : isDateVal s = true) (he : isDateVal e = true)
    (hq : pyTruthy mm = true → isNumberVal mm = true)
    (hst : (net (buildUrl s e mm)).status_code = 200)
    (hp : read_csv (net (buildUrl s e mm)).text = Except.ok df)
    (hmiss : ¬ (requiredCols ⊆ df.columns)) :
    ∃ pe, (retrieve_data_from_usgs_api s e mm net).2 = Except.error pe ∧
      specKind pe = SpecErrorKind.parseError ∧
      (∀ cs rs, Effect.dataframe cs rs ∉ (retrieve_data_from_usgs_api s e mm net).1) ∧
      (∀ msg, Effect.markdown msg ∉ (retrieve_data_from_usgs_api s e mm net).1) := by
  obtain ⟨pe, h1, h2, h3, h4⟩ := renderBody_missing df hmiss
  rw [retrieve_unfold s e mm net hs he hq hst hp]
  refine ⟨pe, h1, h2, fun cs rs hmem => ?_, fun msg hmem => ?_⟩
  · rcases List.mem_cons.mp hmem with hcontra | hcontra
    · exact Effect.noConfusion hcontra
    · exact h3 cs rs hcontra
  · rcases List.mem_cons.mp hmem with hcontra | hcontra
    · exact Effect.noConfusion hcontra
    · exact h4 msg hcontra

/-- C2 witness: a 200 response whose body lacks the `mag` column. -/
theorem missing_column_parse_error_witness :
    isDateVal dA = true ∧ isDateVal dB = true ∧
      (pyTruthy PyVal.none = true → isNumberVal PyVal.none = true) ∧
      (netNoMag (buildUrl dA dB PyVal.none)).status_code = 200 ∧
      read_csv (netNoMag (buildUrl dA dB PyVal.none)).text = Except.ok dfNoMag ∧
      ¬ (requiredCols ⊆ dfNoMag.columns) ∧
      (∃ pe, (retrieve_data_from_usgs_api dA dB PyVal.none netNoMag).2 = Except.error pe ∧
        specKind pe = SpecErrorKind.parseError ∧
        (∀ cs rs, Effect.dataframe cs rs ∉
          (retrieve_data_from_usgs_api dA dB PyVal.none netNoMag).1) ∧
        (∀ msg, Effect.markdown msg ∉
          (retrieve_data_from_usgs_api dA dB PyVal.none netNoMag).1)) :=
  ⟨rfl, rfl, by simp [pyTruthy], rfl, rfl, by decide,
    missing_column_parse_error dA dB PyVal.none netNoMag dfNoMag rfl rfl
      (by simp [pyTruthy]) rfl rfl (by decide)⟩

/-- C10 (implicit): in every successful run, the on-screen table shows
exactly the five columns `place, latitude, longitude, mag, depth`, while the
download link serializes the full parsed dataframe: the base64 payload of
the link decodes to the utf-8 bytes of `to_csv df`, whose header line is
built from every column of `df` (no index column); the displayed five
columns are a subset of the dataframe's columns. -/
theorem export_all_columns_superset (s e mm : PyVal) (net : String → HttpResponse)
    (df : DataFrame) (mags : List ℚ)
    (hs : isDateVal s = true) (he : isDateVal e = true)
    (hq : pyTruthy mm = true → isNumberVal mm = true)
    (hst : (net (buildUrl s e mm)).status_code = 200)
    (hp : read_csv (net (buildUrl s e mm)).text = Except.ok df)
    (hmag : "mag" ∈ df.columns)
    (hmags : parseColumn (df.colD "mag") = some mags)
    (hlat : "latitude" ∈ df.columns) (hlon : "longitude" ∈ df.columns)
    (hplace : "place" ∈ df.columns) (hdep : "depth" ∈ df.columns) :
    Effect.dataframe requiredCols (selRows df) ∈
      (retrieve_data_from_usgs_api s e mm net).1 ∧
    Effect.markdown (get_table_download_link df) ∈
      (retrieve_data_from_usgs_api s e mm net).1 ∧
    requiredCols ⊆ df.columns ∧
    (∃ restStr, to_csv df = joinComma (df.columns.map csvField) ++ "\n" ++ restStr) ∧
    (∃ payload : List Char,
      get_table_download_link df =
        "<a href=\"data:file/csv;base64," ++ String.mk payload ++ "\">Download CSV file</a>" ∧
      b64decBytes payload = some (strBytes (to_csv df))) := by
  rw [retrieve_unfold s e mm net hs he hq hst hp,
      renderBody_ok df mags hmag hmags hlat hlon hplace hdep]
  refine ⟨by simp, by simp, ?_, ⟨csvLines df.rows, rfl⟩,
    ⟨b64encBytes (strBytes (to_csv df)), rfl,
      b64_roundtrip (strBytes (to_csv df)) (strBytes_lt (to_csv df))⟩⟩
  intro x hx
  simp only [requiredCols, List.mem_cons, List.not_mem_nil, or_false] at hx
  rcases hx with rfl | rfl | rfl | rfl | rfl
  · exact hplace
  · exact hlat
  · exact hlon
  · exact hmag
  · exact hdep

/-- C10 witness: a parsed dataframe with an extra `time` column beyond the
five displayed ones. -/
theorem export_all_columns_superset_witness :
    isDateVal dA = true ∧ isDateVal dB = true ∧
      (pyTruthy PyVal.none = true → isNumberVal PyVal.none = true) ∧
      (netFull (buildUrl dA dB PyVal.none)).status_code = 200 ∧
      read_csv (netFull (buildUrl dA dB PyVal.none)).text = Except.ok dfFull ∧
      "mag" ∈ dfFull.columns ∧ parseColumn (dfFull.colD "mag") = some [] ∧
      "latitude" ∈ dfFull.columns ∧ "longitude" ∈ dfFull.columns ∧
      "place" ∈ dfFull.columns ∧ "depth" ∈ dfFull.columns ∧
      (Effect.dataframe requiredCols (selRows dfFull) ∈
          (retrieve_data_from_usgs_api dA dB PyVal.none netFull).1 ∧
        Effect.markdown (get_table_download_link dfFull) ∈
          (retrieve_data_from_usgs_api dA dB PyVal.none netFull).1 ∧
        requiredCols ⊆ dfFull.columns ∧
        (∃ restStr, to_csv dfFull =
          joinComma (dfFull.columns.map csvField) ++ "\n" ++ restStr) ∧
        (∃ payload : List Char,
          get_table_download_link dfFull =
            "<a href=\"data:file/csv;base64," ++ String.mk payload ++
              "\">Download CSV file</a>" ∧
          b64decBytes payload = some (strBytes (to_csv dfFull)))) :=
  ⟨rfl, rfl, by simp [pyTruthy], rfl, rfl, by decide, rfl, by decide, by decide,
    by decide, by decide,
    export_all_columns_superset dA dB PyVal.none netFull dfFull [] rfl rfl
      (by simp [pyTruthy]) rfl rfl (by decide) rfl (by decide) (by decide)
      (by decide) (by decide)⟩
